import Mathlib

/-!
# ghost-pulsar: the particle field of `AntigravityBackground.jsx`

A shallow embedding of the per-frame simulation in
`src/src/components/AntigravityBackground.jsx`: the `Particle` class
(`reset`, `update`), the shockwave list, and the `animate` / `init` /
event-handler functions that own the renderer state.

Numbers.  JavaScript numbers are modelled as elements of a linearly ordered
field `α` with exact arithmetic (no rounding, no NaN, no infinities).  The
definitions of the program are generic in `α`, so they run on `ℚ`; the
functions of the JavaScript `Math` object that the code calls (`sqrt`, `cos`,
`sin`, `atan2`, `PI`) are collected in a record `JSMath α`, and
`realMath : JSMath ℝ` gives them their mathematical meaning.  `Math.floor` is `Int.floor`, `Math.abs` is
the absolute value of the field.  `Math.random()` results and the value of
`window.scrollY` are inputs; `noise3D` (from the `simplex-noise` package) is a
parameter.  Drawing on the canvas is not modelled: `draw()` changes no state.
-/

namespace GhostPulsar

/-! ## The `Math` object -/

/-- The members of the JavaScript `Math` object used by the component. -/
structure JSMath (α : Type) where
  /-- The function `Math.sqrt`. -/
  sqrt : α → α
  /-- The function `Math.cos`. -/
  cos : α → α
  /-- The function `Math.sin`. -/
  sin : α → α
  /-- The function `Math.atan2`, first argument `y`, second argument `x`. -/
  atan2 : α → α → α
  /-- The constant `Math.PI`. -/
  PI : α

/-- The mathematical meaning of the `Math` members over the real numbers.
`Math.atan2 y x` is the argument of the complex number `x + y i`, which is `0`
at `x = y = 0`, as in JavaScript. -/
noncomputable def realMath : JSMath ℝ where
  sqrt := Real.sqrt
  cos := Real.cos
  sin := Real.sin
  atan2 := fun y x => Complex.arg ⟨x, y⟩
  PI := Real.pi

section Model

variable {α : Type} [LinearOrderedField α] [FloorRing α]

/-! ## Configuration (lines 23-35) -/

/-- Source: `const particleCount = 1000`. -/
def particleCount : ℕ := 1000

/-- Source: `const baseScale = 0.0005`. -/
def baseScale : α := 0.0005

/-- Source: `const timeSpeed = 0.0001`. -/
def timeSpeed : α := 0.0001

/-- Source: `const speed = 0.3`. -/
def speed : α := 0.3

/-- Source: `const hoverRadius = 150`. -/
def hoverRadius : α := 150

/-- Source: `const hoverForce = 0.5`. -/
def hoverForce : α := 0.5

/-- Source: `const shockwaveSpeed = 5`. -/
def shockwaveSpeed : α := 5

/-- Source: `const shockwaveMaxRadius = 800`. -/
def shockwaveMaxRadius : α := 800

/-- Source: `const shockwaveForce = 15.0`. -/
def shockwaveForce : α := 15.0

/-- Source: `colorGroups.length`, the number of entries of the palette. -/
def colorGroupsLength : α := 4

/-- Source: `const buffer = 50`, declared in `reset` and again in `update`. -/
def buffer : α := 50

/-! ## Data -/

/-- The object `mouse`: `{ x, y, active }`. -/
structure Mouse (α : Type) where
  x : α
  y : α
  active : Bool

/-- An entry of the array `shockwaves`, as pushed by `handleMouseDown`. -/
structure Shockwave (α : Type) where
  x : α
  y : α
  scrollYAtClick : α
  radius : α
  strength : α

/-- The fields of a `Particle` instance. -/
structure Particle (α : Type) where
  x : α
  y : α
  vx : α
  vy : α
  group : ℤ
  speedMod : α
  size : α
  life : ℕ

/-- The five successive results of `Math.random()` consumed by one call of
`Particle.reset`, in call order. -/
structure ResetRandoms (α : Type) where
  r0 : α
  r1 : α
  r2 : α
  r3 : α
  r4 : α

/-- The contract of `Math.random()`: each result lies in `[0, 1)`. -/
def ResetRandoms.InRange (rs : ResetRandoms α) : Prop :=
  (0 ≤ rs.r0 ∧ rs.r0 < 1) ∧ (0 ≤ rs.r1 ∧ rs.r1 < 1) ∧ (0 ≤ rs.r2 ∧ rs.r2 < 1) ∧
    (0 ≤ rs.r3 ∧ rs.r3 < 1) ∧ (0 ≤ rs.r4 ∧ rs.r4 < 1)

/-! ## `Particle.reset` (lines 52-90) -/

/-- Source: `reset(isInitial)`, lines 52-90.  `self` is the object before the
call.  For `isInitial` the calls of `Math.random()` are `x`, `y`, `group`,
`speedMod`, `size`; otherwise they are `edge`, the free coordinate, `group`,
`speedMod`, `size`.  The `switch` has no `default`, so an `edge` outside
`0..3` leaves `x` and `y` as they were. -/
def Particle.reset (self : Particle α) (isInitial : Bool) (rs : ResetRandoms α)
    (width worldHeight : α) : Particle α :=
  let pos : α × α :=
    if isInitial then
      (rs.r0 * width, rs.r1 * worldHeight)
    else
      let edge : ℤ := ⌊rs.r0 * 4⌋
      if edge = 0 then (rs.r1 * width, -buffer)
      else if edge = 1 then (width + buffer, rs.r1 * worldHeight)
      else if edge = 2 then (rs.r1 * width, worldHeight + buffer)
      else if edge = 3 then (-buffer, rs.r1 * worldHeight)
      else (self.x, self.y)
  { x := pos.1
    y := pos.2
    vx := 0
    vy := 0
    group := ⌊rs.r2 * colorGroupsLength⌋
    speedMod := 0.8 + rs.r3 * 0.4
    size := 1.0 + rs.r4 * 1.5
    life := 0 }

/-- The object on which the constructor runs `reset`.  In JavaScript its fields
are still `undefined`; `reset` overwrites all of them whenever `edge` is one of
`0..3`. -/
def Particle.blank : Particle α :=
  { x := 0, y := 0, vx := 0, vy := 0, group := 0, speedMod := 0, size := 0, life := 0 }

/-- Source: `constructor(isInitial) { this.reset(isInitial) }`, lines 48-50. -/
def Particle.new (isInitial : Bool) (rs : ResetRandoms α) (width worldHeight : α) :
    Particle α :=
  Particle.reset Particle.blank isInitial rs width worldHeight

/-! ## `Particle.update` (lines 92-165), one definition per commented block -/

/-- Source: lines 96-104, the noise sample and `angle = noiseValue * Math.PI * 2`. -/
def flowAngle (m : JSMath α) (noise3D : α → α → α → α) (time : ℕ) (p : Particle α) : α :=
  let groupOffset : α := (p.group : α) * 100
  let noiseValue := noise3D (p.x * baseScale) (p.y * baseScale)
    ((time : α) * timeSpeed + groupOffset)
  noiseValue * m.PI * 2

/-- Source: lines 106-108, "Apply flow force". -/
def applyFlow (m : JSMath α) (angle : α) (p : Particle α) : Particle α :=
  { p with vx := p.vx + m.cos angle * 0.05, vy := p.vy + m.sin angle * 0.05 }

/-- Source: lines 110-116, "Limit speed". -/
def limitSpeed (m : JSMath α) (p : Particle α) : Particle α :=
  let currentSpeed := m.sqrt (p.vx * p.vx + p.vy * p.vy)
  let maxSpeed := speed * p.speedMod
  if currentSpeed > maxSpeed then
    { p with vx := (p.vx / currentSpeed) * maxSpeed, vy := (p.vy / currentSpeed) * maxSpeed }
  else p

/-- Source: lines 118-134, "Mouse interaction (Hover only)". -/
def hoverStep (m : JSMath α) (mouse : Mouse α) (scrollY : α) (p : Particle α) : Particle α :=
  let worldMouseY := mouse.y + scrollY
  let dx := p.x - mouse.x
  let dy := p.y - worldMouseY
  let dist := m.sqrt (dx * dx + dy * dy)
  if dist < hoverRadius then
    let force := (hoverRadius - dist) / hoverRadius
    let angleToMouse := m.atan2 dy dx
    { p with vx := p.vx + m.cos angleToMouse * force * hoverForce,
             vy := p.vy + m.sin angleToMouse * force * hoverForce }
  else p

/-- Source: lines 137-153, the body of `shockwaves.forEach(wave => ...)`. -/
def applyShockwave (m : JSMath α) (p : Particle α) (wave : Shockwave α) : Particle α :=
  let waveWorldY := wave.y + wave.scrollYAtClick
  let dx := p.x - wave.x
  let dy := p.y - waveWorldY
  let dist := m.sqrt (dx * dx + dy * dy)
  let distFromWave := |dist - wave.radius|
  if distFromWave < 50 then
    let force := (1 - distFromWave / 50) * wave.strength
    let angleToWave := m.atan2 dy dx
    { p with vx := p.vx + m.cos angleToWave * force, vy := p.vy + m.sin angleToWave * force }
  else p

/-- Source: lines 136-153, "Shockwave interaction": `forEach` in array order. -/
def shockwaveStep (m : JSMath α) (shockwaves : List (Shockwave α)) (p : Particle α) :
    Particle α :=
  shockwaves.foldl (applyShockwave m) p

/-- Source: lines 155-157, "Move". -/
def move (p : Particle α) : Particle α :=
  { p with x := p.x + p.vx, y := p.y + p.vy }

/-- Source: lines 159-164, the four wrap tests, run one after the other. -/
def wrap (width worldHeight : α) (p : Particle α) : Particle α :=
  let x1 := if p.x < -buffer then width + buffer else p.x
  let x2 := if x1 > width + buffer then -buffer else x1
  let y1 := if p.y < -buffer then worldHeight + buffer else p.y
  let y2 := if y1 > worldHeight + buffer then -buffer else y1
  { p with x := x2, y := y2 }

/-- Source: `update()`, lines 92-165. -/
def Particle.update (m : JSMath α) (noise3D : α → α → α → α) (time : ℕ) (mouse : Mouse α)
    (scrollY : α) (shockwaves : List (Shockwave α)) (width worldHeight : α)
    (p : Particle α) : Particle α :=
  let p0 := { p with life := p.life + 1 }
  let p1 := applyFlow m (flowAngle m noise3D time p0) p0
  let p2 := limitSpeed m p1
  let p3 := hoverStep m mouse scrollY p2
  let p4 := shockwaveStep m shockwaves p3
  let p5 := move p4
  wrap width worldHeight p5

/-! ## The renderer state and `animate` (lines 188-256) -/

/-- The mutable variables of the effect closure: `particles`, `width`,
`height`, `worldHeight`, `time`, `mouse`, `shockwaves`. -/
structure Renderer (α : Type) where
  particles : List (Particle α)
  width : α
  height : α
  worldHeight : α
  time : ℕ
  mouse : Mouse α
  shockwaves : List (Shockwave α)

/-- Source: lines 205-206, `wave.radius += shockwaveSpeed; wave.strength *= 0.92`. -/
def ageWave (wave : Shockwave α) : Shockwave α :=
  { wave with radius := wave.radius + shockwaveSpeed, strength := wave.strength * 0.92 }

/-- Source: line 214, the test `wave.radius > shockwaveMaxRadius || wave.strength < 0.1`. -/
def waveExpired (wave : Shockwave α) : Bool :=
  decide (wave.radius > shockwaveMaxRadius) || decide (wave.strength < 0.1)

/-- A wave stays in the array when the test of line 214 fails. -/
def waveKept (wave : Shockwave α) : Bool := !waveExpired wave

/-- Source: lines 203-217, the loop `for (let i = shockwaves.length - 1; i >= 0; i--)`.
`shockwaveLoop k ws` runs the iterations `i = k - 1, ..., 0` on the array `ws`:
the wave at index `i` is aged in place and then spliced out when expired. -/
def shockwaveLoop : ℕ → List (Shockwave α) → List (Shockwave α)
  | 0, ws => ws
  | i + 1, ws =>
    match ws[i]? with
    | none => shockwaveLoop i ws
    | some wave =>
      let aged := ageWave wave
      let ws1 := ws.set i aged
      let ws2 := if waveExpired aged then ws1.eraseIdx i else ws1
      shockwaveLoop i ws2

/-- Source: lines 202-217, "Update shockwaves". -/
def updateShockwaves (ws : List (Shockwave α)) : List (Shockwave α) :=
  shockwaveLoop ws.length ws

/-- Source: lines 221-225, the loop `for (let i = 0; i < 5; i++)`; `rnd i` holds
the `Math.random()` results of iteration `i`.  `spawnLoop k i` runs `k`
iterations starting at index `i`. -/
def spawnLoop (rnd : ℕ → ResetRandoms α) (width worldHeight : α) :
    ℕ → ℕ → List (Particle α) → List (Particle α)
  | 0, _, ps => ps
  | k + 1, i, ps =>
    let ps1 :=
      if ps.length < particleCount then ps ++ [Particle.new false (rnd i) width worldHeight]
      else ps
    spawnLoop rnd width worldHeight k (i + 1) ps1

/-- Source: lines 219-226, "Spawn new particles". -/
def spawnParticles (rnd : ℕ → ResetRandoms α) (width worldHeight : α)
    (ps : List (Particle α)) : List (Particle α) :=
  if ps.length < particleCount then spawnLoop rnd width worldHeight 5 0 ps else ps

/-- Source: `animate`, lines 197-235.  `scrollY` is the value of
`window.scrollY` during the frame and `rnd` the random numbers of the spawn
loop.  Clearing the canvas, `p.draw()` and `requestAnimationFrame` change no
variable of the state. -/
def animate (m : JSMath α) (noise3D : α → α → α → α) (scrollY : α)
    (rnd : ℕ → ResetRandoms α) (s : Renderer α) : Renderer α :=
  let shockwaves := updateShockwaves s.shockwaves
  let spawned := spawnParticles rnd s.width s.worldHeight s.particles
  let particles := spawned.map
    (Particle.update m noise3D s.time s.mouse scrollY shockwaves s.width s.worldHeight)
  { s with shockwaves := shockwaves, particles := particles, time := s.time + 1 }

/-- Source: `init`, lines 188-195, with `window.innerWidth`, `window.innerHeight`
and `document.documentElement.scrollHeight` as arguments. -/
def init (innerWidth innerHeight scrollHeight : α) (s : Renderer α) : Renderer α :=
  { s with width := innerWidth, height := innerHeight, worldHeight := scrollHeight,
           particles := [] }

/-- Source: `handleMouseMove`, lines 241-245. -/
def handleMouseMove (clientX clientY : α) (s : Renderer α) : Renderer α :=
  { s with mouse := { x := clientX, y := clientY, active := true } }

/-- Source: the object pushed by `handleMouseDown`, lines 249-255. -/
def newShockwave (clientX clientY scrollY : α) : Shockwave α :=
  { x := clientX, y := clientY, scrollYAtClick := scrollY, radius := 0,
    strength := shockwaveForce }

/-- Source: `handleMouseDown`, lines 247-256. -/
def handleMouseDown (clientX clientY scrollY : α) (s : Renderer α) : Renderer α :=
  { s with shockwaves := s.shockwaves ++ [newShockwave clientX clientY scrollY] }

/-- The variables as declared at lines 11-21 and 45, before `init()` runs;
`width` and `height` are declared without a value and `init` assigns them. -/
def declared : Renderer α :=
  { particles := [], width := 0, height := 0, worldHeight := 0, time := 0,
    mouse := { x := -1000, y := -1000, active := false }, shockwaves := [] }

/-- The state after the call `init()` of line 262. -/
def mounted (innerWidth innerHeight scrollHeight : α) : Renderer α :=
  init innerWidth innerHeight scrollHeight declared

/-- What can happen after mounting: a frame, a resize (`handleResize` calls
`init`), a mouse move, a mouse press. -/
inductive Event (α : Type) where
  | frame (scrollY : α) (rnd : ℕ → ResetRandoms α)
  | resize (innerWidth innerHeight scrollHeight : α)
  | mouseMove (clientX clientY : α)
  | mouseDown (clientX clientY scrollY : α)

/-- One event applied to the state. -/
def step (m : JSMath α) (noise3D : α → α → α → α) (s : Renderer α) : Event α → Renderer α
  | .frame scrollY rnd => animate m noise3D scrollY rnd s
  | .resize w h wh => init w h wh s
  | .mouseMove x y => handleMouseMove x y s
  | .mouseDown x y scrollY => handleMouseDown x y scrollY s

/-- A sequence of events applied in order. -/
def run (m : JSMath α) (noise3D : α → α → α → α) (s : Renderer α) (es : List (Event α)) :
    Renderer α :=
  es.foldl (step m noise3D) s

/-- The environment's side of the contract for an event: the window width and
the document height reported at a resize are not negative. -/
def Event.WellFormed : Event α → Prop
  | .frame _ _ => True
  | .resize w _ wh => 0 ≤ w ∧ 0 ≤ wh
  | .mouseMove _ _ => True
  | .mouseDown _ _ _ => True

/-- The world box enlarged by the wrap buffer: `-50 <= x <= width + 50` and
`-50 <= y <= worldHeight + 50`. -/
def Particle.InBox (width worldHeight : α) (p : Particle α) : Prop :=
  (-50 ≤ p.x ∧ p.x ≤ width + 50) ∧ (-50 ≤ p.y ∧ p.y ≤ worldHeight + 50)

/-! ## The specification's description of the shockwave update -/

/-- The specification's wording of "Update shockwaves": every wave is aged, and
the aged waves with `radius <= 800` and `strength >= 0.1` are kept, in order. -/
def agedAndFiltered (ws : List (Shockwave α)) : List (Shockwave α) :=
  (ws.map ageWave).filter
    (fun w => decide (w.radius ≤ shockwaveMaxRadius) && decide (w.strength ≥ 0.1))

end Model

/-- The world-space distance from the mouse to the particle, the quantity
`dist` of lines 120-125 over the real numbers. -/
noncomputable def mouseDistance (mouse : Mouse ℝ) (scrollY : ℝ) (p : Particle ℝ) : ℝ :=
  Real.sqrt ((p.x - mouse.x) * (p.x - mouse.x) +
    (p.y - (mouse.y + scrollY)) * (p.y - (mouse.y + scrollY)))

section ShockwaveLemmas

variable {α : Type} [LinearOrderedField α]

theorem shockwaveLoop_append (pre : List (Shockwave α)) :
    ∀ post : List (Shockwave α),
      shockwaveLoop pre.length (pre ++ post) = (pre.map ageWave).filter waveKept ++ post := by
  induction pre using List.reverseRecOn with
  | nil => intro post; simp [shockwaveLoop]
  | append_singleton l a ih =>
    intro post
    have hlen : (l ++ [a]).length = l.length + 1 := by simp
    have hget : (l ++ [a] ++ post)[l.length]? = some a := by
      rw [List.append_assoc, List.getElem?_append_right (le_refl _)]
      simp
    rw [hlen, shockwaveLoop, hget]
    have hset : (l ++ [a] ++ post).set l.length (ageWave a) = l ++ (ageWave a :: post) := by
      simp [List.set_append_right]
    simp only [hset]
    by_cases hx : waveExpired (ageWave a) = true
    · have herase : (l ++ (ageWave a :: post)).eraseIdx l.length = l ++ post := by
        rw [List.eraseIdx_append_of_length_le (le_refl _)]
        simp
      simp only [hx, if_true, herase, ih post]
      simp [List.filter_append, waveKept, hx]
    · simp only [hx, Bool.false_eq_true, if_false, ih (ageWave a :: post)]
      simp [List.filter_append, waveKept, hx]

theorem updateShockwaves_eq_filter (ws : List (Shockwave α)) :
    updateShockwaves ws = (ws.map ageWave).filter waveKept := by
  have h := shockwaveLoop_append ws []
  simpa [updateShockwaves] using h

theorem waveKept_iff (w : Shockwave α) :
    waveKept w = (decide (w.radius ≤ shockwaveMaxRadius) && decide (w.strength ≥ 0.1)) := by
  unfold waveKept waveExpired
  by_cases h1 : w.radius > shockwaveMaxRadius <;> by_cases h2 : w.strength < 0.1 <;>
    simp [h1, h2, not_le.mpr, le_of_not_lt, not_lt.mp]

end ShockwaveLemmas

section BoxLemmas

variable {α : Type} [LinearOrderedField α]

theorem wrap_inBox (width worldHeight : α) (hw : 0 ≤ width) (hh : 0 ≤ worldHeight)
    (p : Particle α) : (wrap width worldHeight p).InBox width worldHeight := by
  unfold wrap Particle.InBox buffer
  dsimp only
  refine ⟨?_, ?_⟩
  · by_cases h1 : p.x < -50
    · have h2 : ¬ (width + 50 > width + 50) := lt_irrefl _
      simp only [h1, if_true, h2, if_false]
      constructor <;> linarith
    · simp only [h1, if_false]
      by_cases h2 : p.x > width + 50
      · simp only [h2, if_true]
        constructor <;> linarith
      · simp only [h2, if_false]
        exact ⟨not_lt.mp h1, not_lt.mp h2⟩
  · by_cases h1 : p.y < -50
    · have h2 : ¬ (worldHeight + 50 > worldHeight + 50) := lt_irrefl _
      simp only [h1, if_true, h2, if_false]
      constructor <;> linarith
    · simp only [h1, if_false]
      by_cases h2 : p.y > worldHeight + 50
      · simp only [h2, if_true]
        constructor <;> linarith
      · simp only [h2, if_false]
        exact ⟨not_lt.mp h1, not_lt.mp h2⟩

theorem update_inBox (m : JSMath α) (noise3D : α → α → α → α) (time : ℕ) (mouse : Mouse α)
    (scrollY : α) (shockwaves : List (Shockwave α)) (width worldHeight : α)
    (hw : 0 ≤ width) (hh : 0 ≤ worldHeight) (p : Particle α) :
    (Particle.update m noise3D time mouse scrollY shockwaves width worldHeight p).InBox
      width worldHeight := by
  unfold Particle.update
  exact wrap_inBox width worldHeight hw hh _

theorem reset_inBox [FloorRing α] (self : Particle α) (isInitial : Bool) (rs : ResetRandoms α)
    (width worldHeight : α) (hw : 0 ≤ width) (hh : 0 ≤ worldHeight) (hr : rs.InRange) :
    (Particle.reset self isInitial rs width worldHeight).InBox width worldHeight := by
  obtain ⟨⟨h0, h0'⟩, ⟨h1, h1'⟩, -⟩ := hr
  have hx0 : 0 ≤ rs.r1 * width := mul_nonneg h1 hw
  have hx1 : rs.r1 * width ≤ width := mul_le_of_le_one_left hw h1'.le
  have hy0 : 0 ≤ rs.r1 * worldHeight := mul_nonneg h1 hh
  have hy1 : rs.r1 * worldHeight ≤ worldHeight := mul_le_of_le_one_left hh h1'.le
  have hfl0 : (0 : ℤ) ≤ ⌊rs.r0 * 4⌋ := Int.floor_nonneg.mpr (by linarith)
  have hfl4 : ⌊rs.r0 * 4⌋ < (4 : ℤ) := Int.floor_lt.mpr (by push_cast; linarith)
  unfold Particle.reset Particle.InBox buffer
  dsimp only
  cases isInitial with
  | true =>
    have hx0' : 0 ≤ rs.r0 * width := mul_nonneg h0 hw
    have hx1' : rs.r0 * width ≤ width := mul_le_of_le_one_left hw h0'.le
    simp only [if_true]
    refine ⟨⟨?_, ?_⟩, ⟨?_, ?_⟩⟩ <;> linarith
  | false =>
    simp only [Bool.false_eq_true, if_false]
    split_ifs with e0 e1 e2 e3
    · refine ⟨⟨?_, ?_⟩, ⟨?_, ?_⟩⟩ <;> dsimp only <;> linarith
    · refine ⟨⟨?_, ?_⟩, ⟨?_, ?_⟩⟩ <;> dsimp only <;> linarith
    · refine ⟨⟨?_, ?_⟩, ⟨?_, ?_⟩⟩ <;> dsimp only <;> linarith
    · refine ⟨⟨?_, ?_⟩, ⟨?_, ?_⟩⟩ <;> dsimp only <;> linarith
    · exfalso
      omega

theorem step_inBox [FloorRing α] (m : JSMath α) (noise3D : α → α → α → α) (s : Renderer α) (e : Event α)
    (he : e.WellFormed)
    (h : 0 ≤ s.width ∧ 0 ≤ s.worldHeight ∧ ∀ p ∈ s.particles, p.InBox s.width s.worldHeight) :
    0 ≤ (step m noise3D s e).width ∧ 0 ≤ (step m noise3D s e).worldHeight ∧
      ∀ p ∈ (step m noise3D s e).particles,
        p.InBox (step m noise3D s e).width (step m noise3D s e).worldHeight := by
  obtain ⟨hw, hh, hp⟩ := h
  cases e with
  | frame scrollY rnd =>
    refine ⟨hw, hh, fun p hmem => ?_⟩
    simp only [step, animate, List.mem_map] at hmem
    obtain ⟨q, -, rfl⟩ := hmem
    exact update_inBox m noise3D _ _ _ _ _ _ hw hh q
  | resize w h wh =>
    refine ⟨he.1, he.2, fun p hmem => ?_⟩
    simp [step, init] at hmem
  | mouseMove x y => exact ⟨hw, hh, hp⟩
  | mouseDown x y sy => exact ⟨hw, hh, hp⟩

theorem run_inBox [FloorRing α] (m : JSMath α) (noise3D : α → α → α → α) (es : List (Event α)) :
    ∀ s : Renderer α, (∀ e ∈ es, e.WellFormed) →
      (0 ≤ s.width ∧ 0 ≤ s.worldHeight ∧ ∀ p ∈ s.particles, p.InBox s.width s.worldHeight) →
      ∀ p ∈ (run m noise3D s es).particles,
        p.InBox (run m noise3D s es).width (run m noise3D s es).worldHeight := by
  induction es with
  | nil => intro s _ h; exact h.2.2
  | cons e es ih =>
    intro s hes h
    have h1 := step_inBox m noise3D s e (hes e (List.mem_cons_self _ _)) h
    exact ih (step m noise3D s e) (fun e1 he1 => hes e1 (List.mem_cons_of_mem _ he1)) h1

end BoxLemmas

section SpeedModLemmas

variable {α : Type} [LinearOrderedField α]

end SpeedModLemmas

section PoolLemmas

variable {α : Type} [LinearOrderedField α] [FloorRing α]

theorem spawnLoop_length (rnd : ℕ → ResetRandoms α) (width worldHeight : α) (k : ℕ) :
    ∀ (i : ℕ) (ps : List (Particle α)),
      (spawnLoop rnd width worldHeight k i ps).length =
        ps.length + min k (particleCount - ps.length) := by
  induction k with
  | zero => intro i ps; simp [spawnLoop]
  | succ k ih =>
    intro i ps
    rw [spawnLoop, ih]
    by_cases h : ps.length < particleCount
    · simp only [h, if_true, List.length_append, List.length_singleton]
      omega
    · simp only [h, if_false]
      omega

theorem spawnParticles_length (rnd : ℕ → ResetRandoms α) (width worldHeight : α)
    (ps : List (Particle α)) :
    (spawnParticles rnd width worldHeight ps).length =
      ps.length + min 5 (particleCount - ps.length) := by
  unfold spawnParticles
  by_cases h : ps.length < particleCount
  · simp only [h, if_true, spawnLoop_length]
  · simp only [h, if_false]
    omega

theorem animate_particles_length (m : JSMath α) (noise3D : α → α → α → α) (scrollY : α)
    (rnd : ℕ → ResetRandoms α) (s : Renderer α) :
    (animate m noise3D scrollY rnd s).particles.length =
      s.particles.length + min 5 (particleCount - s.particles.length) := by
  simp [animate, spawnParticles_length]

theorem step_particles_le (m : JSMath α) (noise3D : α → α → α → α) (s : Renderer α)
    (e : Event α) (h : s.particles.length ≤ particleCount) :
    (step m noise3D s e).particles.length ≤ particleCount := by
  cases e with
  | frame scrollY rnd =>
    simp only [step, animate_particles_length]
    omega
  | resize w h wh => simp [step, init]
  | mouseMove x y => simpa [step, handleMouseMove] using h
  | mouseDown x y sy => simpa [step, handleMouseDown] using h

theorem run_particles_le (m : JSMath α) (noise3D : α → α → α → α) (es : List (Event α)) :
    ∀ s : Renderer α, s.particles.length ≤ particleCount →
      (run m noise3D s es).particles.length ≤ particleCount := by
  induction es with
  | nil => intro s h; simpa [run] using h
  | cons e es ih =>
    intro s h
    have := ih (step m noise3D s e) (step_particles_le m noise3D s e h)
    simpa [run] using this

end PoolLemmas

section RealLemmas

theorem cos_atan2 (dx dy : ℝ) (h : 0 < Real.sqrt (dx * dx + dy * dy)) :
    realMath.cos (realMath.atan2 dy dx) = dx / Real.sqrt (dx * dx + dy * dy) := by
  have hne : (⟨dx, dy⟩ : ℂ) ≠ 0 := by
    intro h0
    have h1 : dx = 0 := congrArg Complex.re h0
    have h2 : dy = 0 := congrArg Complex.im h0
    simp [h1, h2] at h
  have := Complex.cos_arg hne
  simpa [realMath, Complex.abs_apply, Complex.normSq_apply] using this

theorem sin_atan2 (dx dy : ℝ) :
    realMath.sin (realMath.atan2 dy dx) = dy / Real.sqrt (dx * dx + dy * dy) := by
  have := Complex.sin_arg (⟨dx, dy⟩ : ℂ)
  simpa [realMath, Complex.abs_apply, Complex.normSq_apply] using this

theorem cos_atan2_zero : realMath.cos (realMath.atan2 0 0) = 1 := by
  have h : (⟨0, 0⟩ : ℂ) = 0 := rfl
  simp [realMath, h]

theorem sin_atan2_zero : realMath.sin (realMath.atan2 0 0) = 0 := by
  have h : (⟨0, 0⟩ : ℂ) = 0 := rfl
  simp [realMath, h]

theorem hoverStep_far (mouse : Mouse ℝ) (scrollY : ℝ) (p : Particle ℝ)
    (h : hoverRadius ≤ mouseDistance mouse scrollY p) :
    hoverStep realMath mouse scrollY p = p := by
  have h1 : ¬ mouseDistance mouse scrollY p < hoverRadius := not_lt.mpr h
  unfold mouseDistance at h1
  simp only [hoverStep, realMath, h1, if_false]

theorem hoverStep_near (mouse : Mouse ℝ) (scrollY : ℝ) (p : Particle ℝ)
    (h0 : 0 < mouseDistance mouse scrollY p) (h : mouseDistance mouse scrollY p < hoverRadius) :
    hoverStep realMath mouse scrollY p =
      { p with
        vx := p.vx + (hoverRadius - mouseDistance mouse scrollY p) / hoverRadius * hoverForce *
          ((p.x - mouse.x) / mouseDistance mouse scrollY p),
        vy := p.vy + (hoverRadius - mouseDistance mouse scrollY p) / hoverRadius * hoverForce *
          ((p.y - (mouse.y + scrollY)) / mouseDistance mouse scrollY p) } := by
  have hc := cos_atan2 (p.x - mouse.x) (p.y - (mouse.y + scrollY)) h0
  have hs := sin_atan2 (p.x - mouse.x) (p.y - (mouse.y + scrollY))
  unfold mouseDistance at h h0 ⊢
  unfold hoverStep
  simp only [hc, hs]
  have hr : realMath.sqrt = Real.sqrt := rfl
  simp only [hr, h, if_true]
  congr 1 <;> ring

theorem limitSpeed_slow (p : Particle ℝ)
    (h : Real.sqrt (p.vx * p.vx + p.vy * p.vy) ≤ speed * p.speedMod) :
    limitSpeed realMath p = p := by
  have h1 : ¬ Real.sqrt (p.vx * p.vx + p.vy * p.vy) > speed * p.speedMod := not_lt.mpr h
  simp only [limitSpeed, realMath, h1, if_false]

theorem wrap_inside (width worldHeight : ℝ) (p : Particle ℝ)
    (h : p.InBox width worldHeight) : wrap width worldHeight p = p := by
  obtain ⟨⟨hx0, hx1⟩, ⟨hy0, hy1⟩⟩ := h
  have a1 : ¬ p.x < -50 := not_lt.mpr hx0
  have a2 : ¬ p.x > width + 50 := not_lt.mpr hx1
  have a3 : ¬ p.y < -50 := not_lt.mpr hy0
  have a4 : ¬ p.y > worldHeight + 50 := not_lt.mpr hy1
  simp only [wrap, buffer, a1, a2, a3, a4, if_false]

theorem applyShockwave_centre (p : Particle ℝ) (wave : Shockwave ℝ)
    (hx : p.x = wave.x) (hy : p.y = wave.y + wave.scrollYAtClick) :
    applyShockwave realMath p wave =
      if |wave.radius| < 50 then
        { p with vx := p.vx + (1 - |wave.radius| / 50) * wave.strength }
      else p := by
  have hr : realMath.sqrt = Real.sqrt := rfl
  unfold applyShockwave
  simp only [hx, hy, sub_self, mul_zero, add_zero, hr, Real.sqrt_zero, zero_sub, abs_neg,
    cos_atan2_zero, sin_atan2_zero, one_mul, zero_mul]

theorem hoverStep_at_mouse (mouse : Mouse ℝ) (scrollY : ℝ) (p : Particle ℝ)
    (hx : p.x = mouse.x) (hy : p.y = mouse.y + scrollY) :
    hoverStep realMath mouse scrollY p = { p with vx := p.vx + hoverForce } := by
  have hr : realMath.sqrt = Real.sqrt := rfl
  have hlt : (0 : ℝ) < hoverRadius := by unfold hoverRadius; norm_num
  have hne : (hoverRadius : ℝ) ≠ 0 := hlt.ne'
  unfold hoverStep
  simp only [hx, hy, sub_self, mul_zero, add_zero, hr, Real.sqrt_zero, hlt, if_true,
    cos_atan2_zero, sin_atan2_zero, sub_zero, div_self hne, one_mul, zero_mul]

end RealLemmas

/-! ## Claims -/

section Claims

variable {α : Type} [LinearOrderedField α]

/-- Claim C4. The "Update shockwaves" loop of `animate` (backwards iteration
with `splice`) returns the aged input list filtered by `radius <= 800` and
`strength >= 0.1`, in the original order; hence a wave is in the result exactly
when it is the aged version of an input wave for which the removal condition
`radius > 800 || strength < 0.1` fails. -/
theorem C4_updateShockwaves_removes_exactly (ws : List (Shockwave α)) :
    updateShockwaves ws = agedAndFiltered ws ∧
    (∀ w, w ∈ updateShockwaves ws ↔
      ∃ w0 ∈ ws, w = ageWave w0 ∧ ¬ (w.radius > shockwaveMaxRadius ∨ w.strength < 0.1)) := by
  have heq : updateShockwaves ws = agedAndFiltered ws := by
    rw [updateShockwaves_eq_filter, agedAndFiltered]
    congr 1
    funext w
    exact waveKept_iff w
  refine ⟨heq, fun w => ?_⟩
  rw [heq, agedAndFiltered]
  simp only [List.mem_filter, List.mem_map, Bool.and_eq_true, decide_eq_true_eq, not_or,
    not_lt, ge_iff_le, gt_iff_lt]
  constructor
  · rintro ⟨⟨w0, hw0, rfl⟩, h1, h2⟩
    exact ⟨w0, hw0, rfl, h1, h2⟩
  · rintro ⟨w0, hw0, rfl, h1, h2⟩
    exact ⟨⟨w0, hw0, rfl⟩, h1, h2⟩

end Claims

section PoolClaims

variable {α : Type} [LinearOrderedField α] [FloorRing α]

/-- Claim C5. In every state reached from `init()` by frames, resizes, mouse
moves and mouse presses the pool holds at most `particleCount` (1000)
particles; one `animate` frame adds at most 5 particles to any pool, and
exactly `min 5 (1000 - length)` when the pool is below capacity. -/
theorem C5_pool_capacity (m : JSMath α) (noise3D : α → α → α → α)
    (innerWidth innerHeight scrollHeight : α) (es : List (Event α)) :
    (run m noise3D (mounted innerWidth innerHeight scrollHeight) es).particles.length
        ≤ particleCount ∧
    (∀ (s : Renderer α) (scrollY : α) (rnd : ℕ → ResetRandoms α),
      (animate m noise3D scrollY rnd s).particles.length ≤ s.particles.length + 5 ∧
      s.particles.length ≤ (animate m noise3D scrollY rnd s).particles.length ∧
      (s.particles.length < particleCount →
        (animate m noise3D scrollY rnd s).particles.length =
          s.particles.length + min 5 (particleCount - s.particles.length))) := by
  refine ⟨run_particles_le m noise3D es _ (by simp [mounted, init]), fun s scrollY rnd => ?_⟩
  rw [animate_particles_length]
  refine ⟨?_, ?_, fun _ => rfl⟩ <;> omega

/-- Claim C1. With a non-negative canvas width and world height, one
`Particle.update()` leaves the particle at `-50 <= x <= width + 50` and
`-50 <= y <= worldHeight + 50`, whatever the particle, the mouse, the scroll
offset, the shockwaves and the noise function are; `Particle.reset()` puts the
particle in the same box when `Math.random()` returns values of `[0, 1)`; and in
every state reached from `init()` every particle of the pool is in the box of
the current width and world height. -/
theorem C1_position_in_wrap_box (m : JSMath α) (noise3D : α → α → α → α) :
    (∀ width worldHeight : α, 0 ≤ width → 0 ≤ worldHeight →
      ∀ (time : ℕ) (mouse : Mouse α) (scrollY : α) (shockwaves : List (Shockwave α))
        (p : Particle α),
        (Particle.update m noise3D time mouse scrollY shockwaves width worldHeight p).InBox
          width worldHeight) ∧
    (∀ width worldHeight : α, 0 ≤ width → 0 ≤ worldHeight →
      ∀ (self : Particle α) (isInitial : Bool) (rs : ResetRandoms α), rs.InRange →
        (Particle.reset self isInitial rs width worldHeight).InBox width worldHeight) ∧
    (∀ (innerWidth innerHeight scrollHeight : α) (es : List (Event α)),
      0 ≤ innerWidth → 0 ≤ scrollHeight → (∀ e ∈ es, e.WellFormed) →
      ∀ p ∈ (run m noise3D (mounted innerWidth innerHeight scrollHeight) es).particles,
        p.InBox (run m noise3D (mounted innerWidth innerHeight scrollHeight) es).width
          (run m noise3D (mounted innerWidth innerHeight scrollHeight) es).worldHeight) := by
  refine ⟨fun width worldHeight hw hh time mouse scrollY shockwaves p =>
      update_inBox m noise3D time mouse scrollY shockwaves width worldHeight hw hh p,
    fun width worldHeight hw hh self isInitial rs hr =>
      reset_inBox self isInitial rs width worldHeight hw hh hr,
    fun w h wh es hw hh hes => ?_⟩
  refine run_inBox m noise3D es _ hes ⟨hw, hh, ?_⟩
  intro p hp
  simp [mounted, init] at hp

end PoolClaims

section RealClaims

/-- Claim C7. With `d` the world-space distance from the mouse (mouse y plus the
scroll offset) to the particle: for `0 < d < hoverRadius` the hover step of
`update` adds `(150 - d) / 150 * hoverForce` times the unit vector from the
mouse to the particle to the velocity and changes nothing else; for
`d >= 150` it changes nothing; and at `d = 50` the added velocity is a positive
multiple of the vector from the mouse to the particle and has magnitude
`(150 - 50) / 150 * 0.5`. -/
theorem C7_hover_force (mouse : Mouse ℝ) (scrollY : ℝ) (p : Particle ℝ) :
    (0 < mouseDistance mouse scrollY p → mouseDistance mouse scrollY p < hoverRadius →
      hoverStep realMath mouse scrollY p =
        { p with
          vx := p.vx + (hoverRadius - mouseDistance mouse scrollY p) / hoverRadius * hoverForce *
            ((p.x - mouse.x) / mouseDistance mouse scrollY p),
          vy := p.vy + (hoverRadius - mouseDistance mouse scrollY p) / hoverRadius * hoverForce *
            ((p.y - (mouse.y + scrollY)) / mouseDistance mouse scrollY p) }) ∧
    (hoverRadius ≤ mouseDistance mouse scrollY p → hoverStep realMath mouse scrollY p = p) ∧
    (mouseDistance mouse scrollY p = 50 →
      Real.sqrt (((hoverStep realMath mouse scrollY p).vx - p.vx) ^ 2 +
        ((hoverStep realMath mouse scrollY p).vy - p.vy) ^ 2) = (150 - 50) / 150 * 0.5 ∧
      ∃ k : ℝ, 0 < k ∧ (hoverStep realMath mouse scrollY p).vx - p.vx = k * (p.x - mouse.x) ∧
        (hoverStep realMath mouse scrollY p).vy - p.vy = k * (p.y - (mouse.y + scrollY))) := by
  refine ⟨hoverStep_near mouse scrollY p, hoverStep_far mouse scrollY p, fun h50 => ?_⟩
  have h0 : 0 < mouseDistance mouse scrollY p := by rw [h50]; norm_num
  have hlt : mouseDistance mouse scrollY p < hoverRadius := by
    rw [h50]; unfold hoverRadius; norm_num
  have hstep := hoverStep_near mouse scrollY p h0 hlt
  have hsq : (p.x - mouse.x) * (p.x - mouse.x) +
      (p.y - (mouse.y + scrollY)) * (p.y - (mouse.y + scrollY)) = 50 ^ 2 := by
    have h := h50
    unfold mouseDistance at h
    have hnn : 0 ≤ (p.x - mouse.x) * (p.x - mouse.x) +
        (p.y - (mouse.y + scrollY)) * (p.y - (mouse.y + scrollY)) := by nlinarith [sq_nonneg (p.x - mouse.x), sq_nonneg (p.y - (mouse.y + scrollY))]
    rw [← Real.sq_sqrt hnn, h]
  rw [hstep, h50]
  simp only [hoverRadius, hoverForce]
  constructor
  · have : (p.vx + (150 - 50) / 150 * 0.5 * ((p.x - mouse.x) / 50) - p.vx) ^ 2 +
        (p.vy + (150 - 50) / 150 * 0.5 * ((p.y - (mouse.y + scrollY)) / 50) - p.vy) ^ 2 =
        ((150 - 50) / 150 * 0.5) ^ 2 := by
      have e : (p.vx + (150 - 50) / 150 * 0.5 * ((p.x - mouse.x) / 50) - p.vx) ^ 2 +
          (p.vy + (150 - 50) / 150 * 0.5 * ((p.y - (mouse.y + scrollY)) / 50) - p.vy) ^ 2 =
          ((150 - 50) / 150 * 0.5) ^ 2 / 50 ^ 2 * ((p.x - mouse.x) * (p.x - mouse.x) +
            (p.y - (mouse.y + scrollY)) * (p.y - (mouse.y + scrollY))) := by ring
      rw [e, hsq]
      norm_num
    rw [this, Real.sqrt_sq (by norm_num)]
  · refine ⟨(150 - 50) / 150 * 0.5 / 50, by norm_num, ?_, ?_⟩ <;> ring

/-- Claim C8, the part that fails: for the noise value `-1/2`, which lies in
`[-1, 1]`, the flow angle of `update` is negative, so it is not in `[0, 2*pi)`. -/
theorem C8_angle_negative_counterexample :
    ((-1 : ℝ) ≤ -1 / 2 ∧ (-1 / 2 : ℝ) ≤ 1) ∧
    flowAngle realMath (fun _ _ _ => -1 / 2) 0
        { x := 100, y := 100, vx := 0, vy := 0, group := 0, speedMod := 1, size := 1, life := 0 }
      = -Real.pi ∧
    ¬ (0 ≤ flowAngle realMath (fun _ _ _ => -1 / 2) 0
        { x := 100, y := 100, vx := 0, vy := 0, group := 0, speedMod := 1, size := 1,
          life := 0 }) := by
  have h : flowAngle realMath (fun _ _ _ => -1 / 2) 0
      { x := 100, y := 100, vx := 0, vy := 0, group := 0, speedMod := 1, size := 1, life := 0 }
      = -Real.pi := by
    simp only [flowAngle, realMath]
    ring
  refine ⟨by norm_num, h, ?_⟩
  rw [h]
  have := Real.pi_pos
  linarith

/-- Claim C8, amended. When `noise3D` takes values in `[-1, 1]`, the flow angle
of `update` is the noise sample times `2*pi` and lies in `[-2*pi, 2*pi]`; the
flow step adds `0.05 * (cos angle, sin angle)` to the velocity the particle
already has and changes nothing else. -/
theorem C8_flow_angle_and_force (noise3D : ℝ → ℝ → ℝ → ℝ) (time : ℕ) (p : Particle ℝ)
    (hn : ∀ a b c, -1 ≤ noise3D a b c ∧ noise3D a b c ≤ 1) :
    flowAngle realMath noise3D time p =
      noise3D (p.x * 0.0005) (p.y * 0.0005) (time * 0.0001 + p.group * 100) * (2 * Real.pi) ∧
    -(2 * Real.pi) ≤ flowAngle realMath noise3D time p ∧
    flowAngle realMath noise3D time p ≤ 2 * Real.pi ∧
    applyFlow realMath (flowAngle realMath noise3D time p) p =
      { p with
        vx := p.vx + 0.05 * Real.cos (flowAngle realMath noise3D time p),
        vy := p.vy + 0.05 * Real.sin (flowAngle realMath noise3D time p) } := by
  have hval : flowAngle realMath noise3D time p =
      noise3D (p.x * 0.0005) (p.y * 0.0005) (time * 0.0001 + p.group * 100) * (2 * Real.pi) := by
    simp only [flowAngle, realMath, baseScale, timeSpeed]
    ring
  obtain ⟨h1, h2⟩ := hn (p.x * 0.0005) (p.y * 0.0005) (time * 0.0001 + p.group * 100)
  have hpi := Real.pi_pos
  refine ⟨hval, ?_, ?_, ?_⟩
  · rw [hval]; nlinarith
  · rw [hval]; nlinarith
  · simp only [applyFlow, realMath]
    congr 1 <;> ring

/-- Claim C9. A particle at `(100, 100)` with zero velocity and `speedMod` in
`[0.8, 1.2]`, the mouse at least `hoverRadius` away, no shockwaves, `width` and
`worldHeight` at least 100: one `update` moves it to
`(100 + 0.05 * cos a, 100 + 0.05 * sin a)` with
`a = 2*pi * noise3D(100 * 0.0005, 100 * 0.0005, time * 0.0001 + group * 100)`;
its velocity is the flow force `0.05 * (cos a, sin a)`, `life` grows by one and
nothing else changes. -/
theorem C9_single_step_flow_only (noise3D : ℝ → ℝ → ℝ → ℝ) (time : ℕ) (mouse : Mouse ℝ)
    (scrollY width worldHeight : ℝ) (group : ℤ) (speedMod size : ℝ) (life : ℕ)
    (hs : 0.8 ≤ speedMod ∧ speedMod ≤ 1.2)
    (hm : hoverRadius ≤ mouseDistance mouse scrollY
      { x := 100, y := 100, vx := 0, vy := 0, group := group, speedMod := speedMod,
        size := size, life := life })
    (hw : 100 ≤ width) (hh : 100 ≤ worldHeight) :
    Particle.update realMath noise3D time mouse scrollY [] width worldHeight
        { x := 100, y := 100, vx := 0, vy := 0, group := group, speedMod := speedMod,
          size := size, life := life } =
      { x := 100 + 0.05 * Real.cos
          (2 * Real.pi * noise3D (100 * 0.0005) (100 * 0.0005) (time * 0.0001 + group * 100)),
        y := 100 + 0.05 * Real.sin
          (2 * Real.pi * noise3D (100 * 0.0005) (100 * 0.0005) (time * 0.0001 + group * 100)),
        vx := 0.05 * Real.cos
          (2 * Real.pi * noise3D (100 * 0.0005) (100 * 0.0005) (time * 0.0001 + group * 100)),
        vy := 0.05 * Real.sin
          (2 * Real.pi * noise3D (100 * 0.0005) (100 * 0.0005) (time * 0.0001 + group * 100)),
        group := group, speedMod := speedMod, size := size, life := life + 1 } := by
  obtain ⟨hs1, hs2⟩ := hs
  generalize ha : 2 * Real.pi *
    noise3D (100 * 0.0005) (100 * 0.0005) (time * 0.0001 + group * 100) = a
  have hangle : flowAngle realMath noise3D time
      { x := 100, y := 100, vx := 0, vy := 0, group := group, speedMod := speedMod,
        size := size, life := life + 1 } = a := by
    rw [← ha]
    simp only [flowAngle, realMath, baseScale, timeSpeed]
    ring
  have hflow : applyFlow realMath a
      { x := 100, y := 100, vx := 0, vy := 0, group := group, speedMod := speedMod,
        size := size, life := life + 1 } =
      { x := 100, y := 100, vx := 0.05 * Real.cos a, vy := 0.05 * Real.sin a, group := group,
        speedMod := speedMod, size := size, life := life + 1 } := by
    simp only [applyFlow, realMath, zero_add, mul_comm]
  have hcs := Real.cos_sq_add_sin_sq a
  have hc1 := Real.cos_le_one a
  have hc2 := Real.neg_one_le_cos a
  have hs3 := Real.sin_le_one a
  have hs4 := Real.neg_one_le_sin a
  have hmag : Real.sqrt (0.05 * Real.cos a * (0.05 * Real.cos a) +
      0.05 * Real.sin a * (0.05 * Real.sin a)) = 0.05 := by
    have e : 0.05 * Real.cos a * (0.05 * Real.cos a) + 0.05 * Real.sin a * (0.05 * Real.sin a)
        = 0.05 ^ 2 := by
      have : 0.05 * Real.cos a * (0.05 * Real.cos a) + 0.05 * Real.sin a * (0.05 * Real.sin a)
          = 0.05 ^ 2 * (Real.cos a ^ 2 + Real.sin a ^ 2) := by ring
      rw [this, hcs, mul_one]
    rw [e, Real.sqrt_sq (by norm_num)]
  have hlimit := limitSpeed_slow
    { x := 100, y := 100, vx := 0.05 * Real.cos a, vy := 0.05 * Real.sin a, group := group,
      speedMod := speedMod, size := size, life := life + 1 }
    (by
      show Real.sqrt (0.05 * Real.cos a * (0.05 * Real.cos a) +
        0.05 * Real.sin a * (0.05 * Real.sin a)) ≤ speed * speedMod
      rw [hmag]
      unfold speed
      linarith)
  have hhover := hoverStep_far mouse scrollY
    { x := 100, y := 100, vx := 0.05 * Real.cos a, vy := 0.05 * Real.sin a, group := group,
      speedMod := speedMod, size := size, life := life + 1 } hm
  have hwrap := wrap_inside width worldHeight
    { x := 100 + 0.05 * Real.cos a, y := 100 + 0.05 * Real.sin a, vx := 0.05 * Real.cos a,
      vy := 0.05 * Real.sin a, group := group, speedMod := speedMod, size := size,
      life := life + 1 }
    (by
      refine ⟨⟨?_, ?_⟩, ⟨?_, ?_⟩⟩ <;> dsimp only <;> linarith)
  unfold Particle.update
  simp only [hangle, hflow, hlimit, hhover, shockwaveStep, List.foldl_nil, move, hwrap]

/-- Claim C10, as stated, fails: a particle at rest exactly at the mouse
position (mouse `(10, 5)`, scroll offset 15, particle `(10, 20)`) leaves the
hover step with `vx = 0.5`, not `0`; and a particle at rest exactly at the centre
of a shockwave of radius 5 and strength 13.8 (a new shockwave after its first
frame) leaves the shockwave step with `vx = 12.42`. -/
theorem C10_zero_distance_counterexample :
    (hoverStep realMath { x := 10, y := 5, active := true } 15
      { x := 10, y := 20, vx := 0, vy := 0, group := 0, speedMod := 1, size := 1,
        life := 0 }).vx = 0.5 ∧
    (applyShockwave realMath
      { x := 10, y := 20, vx := 0, vy := 0, group := 0, speedMod := 1, size := 1, life := 0 }
      { x := 10, y := 5, scrollYAtClick := 15, radius := 5, strength := 13.8 }).vx = 12.42 := by
  constructor
  · rw [hoverStep_at_mouse _ _ _ (by norm_num) (by norm_num)]
    simp only [hoverForce]
    norm_num
  · rw [applyShockwave_centre _ _ (by norm_num) (by norm_num)]
    norm_num [abs_of_nonneg]

/-- Claim C10, amended. `update` has no guard for a zero distance, and none is
needed to avoid a division by zero: the direction comes from `Math.atan2`, and
`atan2(0, 0) = 0`.  A particle exactly at the world-space mouse position gets
`hoverForce` (0.5) added to `vx` by the hover step and `vy` is unchanged; a
particle exactly at the centre of a shockwave gets
`(1 - |radius| / 50) * strength` added to `vx` when `|radius| < 50`, and nothing
otherwise. -/
theorem C10_zero_distance_force (mouse : Mouse ℝ) (scrollY : ℝ) (wave : Shockwave ℝ)
    (p : Particle ℝ) :
    (p.x = mouse.x → p.y = mouse.y + scrollY →
      hoverStep realMath mouse scrollY p = { p with vx := p.vx + hoverForce }) ∧
    (p.x = wave.x → p.y = wave.y + wave.scrollYAtClick →
      applyShockwave realMath p wave =
        if |wave.radius| < 50 then
          { p with vx := p.vx + (1 - |wave.radius| / 50) * wave.strength }
        else p) :=
  ⟨hoverStep_at_mouse mouse scrollY p, applyShockwave_centre p wave⟩

end RealClaims

/-! ## Instances of the claims at concrete inputs -/

section Witnesses

/-- A particle outside the box, at `(-60, 300)` in a world of width 100 and
height 200, is inside the box after one `update`. -/
theorem C1_position_in_wrap_box_witness :
    ((0 : ℝ) ≤ 100 ∧ (0 : ℝ) ≤ 200) ∧
    (Particle.update realMath (fun _ _ _ => 0) 0 { x := -1000, y := -1000, active := false } 0 []
      100 200
      { x := -60, y := 300, vx := 0, vy := 0, group := 0, speedMod := 1, size := 1,
        life := 0 }).InBox 100 200 :=
  ⟨⟨by norm_num, by norm_num⟩,
    (C1_position_in_wrap_box realMath (fun _ _ _ => 0)).1 100 200 (by norm_num) (by norm_num)
      0 { x := -1000, y := -1000, active := false } 0 []
      { x := -60, y := 300, vx := 0, vy := 0, group := 0, speedMod := 1, size := 1, life := 0 }⟩

/-- The first frame after mounting fills the empty pool with 5 particles. -/
theorem C5_pool_capacity_witness :
    (mounted (100 : ℝ) 100 300).particles.length < particleCount ∧
    (animate realMath (fun _ _ _ => 0) 0
        (fun _ => { r0 := 0, r1 := 0, r2 := 0, r3 := 0, r4 := 0 })
        (mounted (100 : ℝ) 100 300)).particles.length =
      (mounted (100 : ℝ) 100 300).particles.length +
        min 5 (particleCount - (mounted (100 : ℝ) 100 300).particles.length) :=
  have h : (mounted (100 : ℝ) 100 300).particles.length < particleCount := by
    simp [mounted, init, particleCount]
  ⟨h, ((C5_pool_capacity realMath (fun _ _ _ => 0) (100 : ℝ) 100 300 []).2
    (mounted (100 : ℝ) 100 300) 0
    (fun _ => { r0 := 0, r1 := 0, r2 := 0, r3 := 0, r4 := 0 })).2.2 h⟩

/-- A particle at `(50, 0)` with the mouse at the origin is at distance 50 and
gains a velocity of magnitude `(150 - 50) / 150 * 0.5`. -/
theorem C7_hover_force_witness :
    mouseDistance { x := 0, y := 0, active := true } 0
      { x := 50, y := 0, vx := 0, vy := 0, group := 0, speedMod := 1, size := 1,
        life := 0 } = 50 ∧
    Real.sqrt
      (((hoverStep realMath { x := 0, y := 0, active := true } 0
          { x := 50, y := 0, vx := 0, vy := 0, group := 0, speedMod := 1, size := 1,
            life := 0 }).vx - 0) ^ 2 +
       ((hoverStep realMath { x := 0, y := 0, active := true } 0
          { x := 50, y := 0, vx := 0, vy := 0, group := 0, speedMod := 1, size := 1,
            life := 0 }).vy - 0) ^ 2) = (150 - 50) / 150 * 0.5 :=
  have h : mouseDistance { x := 0, y := 0, active := true } 0
      { x := 50, y := 0, vx := 0, vy := 0, group := 0, speedMod := 1, size := 1,
        life := 0 } = 50 := by
    simp only [mouseDistance]
    rw [Real.sqrt_eq_iff_mul_self_eq_of_pos (by norm_num)]
    norm_num
  ⟨h, ((C7_hover_force { x := 0, y := 0, active := true } 0
      { x := 50, y := 0, vx := 0, vy := 0, group := 0, speedMod := 1, size := 1,
        life := 0 }).2.2 h).1⟩

/-- With the constant noise `0` the flow angle is within `[-2*pi, 2*pi]`. -/
theorem C8_flow_angle_and_force_witness :
    (∀ a b c : ℝ, -1 ≤ (fun _ _ _ => (0 : ℝ)) a b c ∧ (fun _ _ _ => (0 : ℝ)) a b c ≤ 1) ∧
    -(2 * Real.pi) ≤ flowAngle realMath (fun _ _ _ => 0) 0
      { x := 100, y := 100, vx := 0, vy := 0, group := 0, speedMod := 1, size := 1,
        life := 0 } :=
  ⟨fun _ _ _ => ⟨by norm_num, by norm_num⟩,
    (C8_flow_angle_and_force (fun _ _ _ => 0) 0
      { x := 100, y := 100, vx := 0, vy := 0, group := 0, speedMod := 1, size := 1, life := 0 }
      (fun _ _ _ => ⟨by norm_num, by norm_num⟩)).2.1⟩

/-- The scenario of the claim with the mouse at its initial position
`(-1000, -1000)`, `speedMod = 1`, a `1920 x 3000` world and the constant noise
`0`. -/
theorem C9_single_step_flow_only_witness :
    hoverRadius ≤ mouseDistance { x := -1000, y := -1000, active := false } 0
      { x := 100, y := 100, vx := 0, vy := 0, group := 2, speedMod := 1, size := 1,
        life := 0 } ∧
    Particle.update realMath (fun _ _ _ => 0) 7 { x := -1000, y := -1000, active := false } 0 []
        1920 3000
        { x := 100, y := 100, vx := 0, vy := 0, group := 2, speedMod := 1, size := 1,
          life := 0 } =
      { x := 100 + 0.05 * Real.cos (2 * Real.pi * 0),
        y := 100 + 0.05 * Real.sin (2 * Real.pi * 0),
        vx := 0.05 * Real.cos (2 * Real.pi * 0),
        vy := 0.05 * Real.sin (2 * Real.pi * 0),
        group := 2, speedMod := 1, size := 1, life := 0 + 1 } :=
  have h : hoverRadius ≤ mouseDistance { x := -1000, y := -1000, active := false } 0
      { x := 100, y := 100, vx := 0, vy := 0, group := 2, speedMod := 1, size := 1,
        life := 0 } := by
    simp only [mouseDistance, hoverRadius]
    rw [Real.le_sqrt' (by norm_num)]
    norm_num
  ⟨h, C9_single_step_flow_only (fun _ _ _ => 0) 7 { x := -1000, y := -1000, active := false }
    0 1920 3000 2 1 1 0 ⟨by norm_num, by norm_num⟩ h (by norm_num) (by norm_num)⟩

/-- A particle at `(10, 20)` with the mouse at `(10, 5)` and a scroll offset of
15 coincides with the mouse in world space; the hover step adds `hoverForce` to
`vx`. -/
theorem C10_zero_distance_force_witness :
    ((10 : ℝ) = 10 ∧ (20 : ℝ) = 5 + 15) ∧
    hoverStep realMath { x := 10, y := 5, active := true } 15
      { x := 10, y := 20, vx := 0, vy := 0, group := 0, speedMod := 1, size := 1, life := 0 } =
      { x := 10, y := 20, vx := 0 + hoverForce, vy := 0, group := 0, speedMod := 1, size := 1,
        life := 0 } :=
  ⟨⟨rfl, by norm_num⟩,
    (C10_zero_distance_force { x := 10, y := 5, active := true } 15
      { x := 0, y := 0, scrollYAtClick := 0, radius := 0, strength := 0 }
      { x := 10, y := 20, vx := 0, vy := 0, group := 0, speedMod := 1, size := 1,
        life := 0 }).1 rfl (by norm_num)⟩

end Witnesses

end GhostPulsar
